import Mathlib

/-!
Verification development for the CBC blood-analysis application.

The embedding models the three core functions of `app.py`:
`parse_cbc_values`, `assess_sample_quality` and `analyze_values`.
Python dicts are modelled as association lists in insertion order,
Python floats as rationals, and the raising of an uncaught exception
as `Except.error`.
-/

namespace App

/-- A value stored in a finding record: the source stores either a float
or a string (such as "Violated" or the empty string) in the Value slot. -/
inductive PyVal where
  | num (q : ℚ)
  | str (s : String)
deriving DecidableEq, Repr

/-- One entry of the NORMAL_RANGES table: min, max, unit, desc. -/
structure RangeInfo where
  min : ℚ
  max : ℚ
  unit : String
  desc : String
deriving DecidableEq, Repr

/-- One row of the analysis output, mirroring the dict literal appended by
`analyze_values` with keys Parameter, Value, Unit, Status, Suggestion. -/
structure Finding where
  Parameter : String
  Value : PyVal
  Unit : String
  Status : String
  Suggestion : String
deriving DecidableEq, Repr

/-- The hardcoded `NORMAL_RANGES` dict of the source, in definition order. -/
def NORMAL_RANGES : List (String × RangeInfo) := [
  ("RBC", ⟨4.5, 5.9, "x10^12/L", "Red Blood Cell Count"⟩),
  ("Hemoglobin", ⟨13.5, 17.5, "g/dL", "Hemoglobin (Hb)"⟩),
  ("Hematocrit", ⟨41, 53, "%", "Hematocrit (HCT)"⟩),
  ("MCV", ⟨80, 100, "fL", "Mean Corpuscular Volume"⟩),
  ("MCH", ⟨27, 31, "pg", "Mean Corpuscular Hemoglobin"⟩),
  ("MCHC", ⟨32, 36, "g/dL", "Mean Corpuscular Hemoglobin Concentration"⟩),
  ("RDW", ⟨11.5, 14.5, "%", "Red Cell Distribution Width"⟩),
  ("WBC", ⟨4.5, 11.0, "x10^9/L", "White Blood Cell Count"⟩),
  ("Neutrophils", ⟨1.8, 7.7, "x10^9/L", "Neutrophils (Absolute)"⟩),
  ("Lymphocytes", ⟨1.0, 4.8, "x10^9/L", "Lymphocytes (Absolute)"⟩),
  ("Monocytes", ⟨0.2, 1.0, "x10^9/L", "Monocytes (Absolute)"⟩),
  ("Eosinophils", ⟨0.0, 0.5, "x10^9/L", "Eosinophils (Absolute)"⟩),
  ("Basophils", ⟨0.0, 0.2, "x10^9/L", "Basophils (Absolute)"⟩),
  ("Platelets", ⟨150, 450, "x10^9/L", "Platelet Count"⟩),
  ("MPV", ⟨7.4, 10.4, "fL", "Mean Platelet Volume"⟩),
  ("Reticulocytes", ⟨0.5, 1.5, "%", "Reticulocyte Count"⟩)
]

/-- Dictionary lookup `NORMAL_RANGES[p]` (as an Option). -/
def lookupRange (p : String) : Option RangeInfo :=
  List.lookup p NORMAL_RANGES

/-- The min bound of a table entry, `NORMAL_RANGES[p]["min"]`. -/
def minOf (p : String) : ℚ :=
  match lookupRange p with
  | some r => r.min
  | none => 0

/-- The max bound of a table entry, `NORMAL_RANGES[p]["max"]`. -/
def maxOf (p : String) : ℚ :=
  match lookupRange p with
  | some r => r.max
  | none => 0

/-! ## The regex engine fragment used by `parse_cbc_values`

Every pattern in the source has one of two shapes:
`NAME[\s:]*([\d\.]+)` or `ALT1|ALT2[\s:]*([\d\.]+)` — by regex alternation
precedence the latter is `(ALT1)|(ALT2[\s:]*([\d\.]+))`, so a match of the
bare first alternative leaves the capture group empty.  `re.search` finds
the leftmost position at which some alternative matches, trying the first
alternative first; the matching is case-insensitive. -/

/-- Membership in the character class `[\s:]`. -/
def isSep (c : Char) : Bool :=
  c == ' ' || c == '\t' || c == '\n' || c == '\x0b' || c == '\x0c' || c == '\r' || c == ':'

/-- Membership in the character class `[\d\.]`. -/
def isNumChar (c : Char) : Bool :=
  c.isDigit || c == '.'

/-- Strip a case-insensitive literal prefix, returning the remainder. -/
def dropCI : List Char → List Char → Option (List Char)
  | [], s => some s
  | _ :: _, [] => none
  | c :: cs, d :: ds => if c.toLower == d.toLower then dropCI cs ds else none

/-- Match `[\s:]*([\d\.]+)` at the start of `rest`, returning the captured
token.  Greedy `[\s:]*` followed by a mandatory `[\d\.]+` over disjoint
character classes means: skip the maximal separator run, then require a
nonempty maximal numeric run. -/
def numTok (rest : List Char) : Option (List Char) :=
  let tok := (rest.dropWhile isSep).takeWhile isNumChar
  if tok.isEmpty then none else some tok

/-- Match `NAME[\s:]*([\d\.]+)` at the start of `s`. -/
def matchSingleAt (nm s : List Char) : Option (List Char) :=
  match dropCI nm s with
  | none => none
  | some rest => numTok rest

/-- `re.search` for a single-alternative pattern: leftmost match wins. -/
def searchSingle (nm : List Char) : List Char → Option (List Char)
  | [] => matchSingleAt nm []
  | c :: rest =>
    match matchSingleAt nm (c :: rest) with
    | some tok => some tok
    | none => searchSingle nm rest

/-- Match `ALT1|ALT2[\s:]*([\d\.]+)` at the start of `s`.
`some none` means the bare first alternative matched (capture group empty). -/
def matchAltAt (a1 a2 s : List Char) : Option (Option (List Char)) :=
  if (dropCI a1 s).isSome then some none
  else
    match matchSingleAt a2 s with
    | some tok => some (some tok)
    | none => none

/-- `re.search` for a two-alternative pattern: leftmost match wins, and at
each position the first alternative is tried first. -/
def searchAlt (a1 a2 : List Char) : List Char → Option (Option (List Char))
  | [] => matchAltAt a1 a2 []
  | c :: rest =>
    match matchAltAt a1 a2 (c :: rest) with
    | some r => some r
    | none => searchAlt a1 a2 rest

/-- The two pattern shapes occurring in the `patterns` dict. -/
inductive Pat where
  | single (nm : String)
  | alt (a b : String)
deriving DecidableEq, Repr

/-- Run `re.search(pattern, text)`: `none` is no match, `some none` a match
whose capture group is None, `some (some tok)` a match capturing `tok`. -/
def runPat (p : Pat) (text : List Char) : Option (Option (List Char)) :=
  match p with
  | .single n => (searchSingle n.toList text).map some
  | .alt a b => searchAlt a.toList b.toList text

/-- The `patterns` dict of `parse_cbc_values`, in definition order. -/
def patterns : List (String × Pat) := [
  ("RBC", Pat.single "RBC"),
  ("Hemoglobin", Pat.alt "Hemoglobin" "Hb"),
  ("Hematocrit", Pat.alt "Hematocrit" "HCT"),
  ("MCV", Pat.single "MCV"),
  ("MCH", Pat.single "MCH"),
  ("MCHC", Pat.single "MCHC"),
  ("RDW", Pat.single "RDW"),
  ("WBC", Pat.single "WBC"),
  ("Neutrophils", Pat.alt "Neutrophils" "NEU"),
  ("Lymphocytes", Pat.alt "Lymphocytes" "LYM"),
  ("Monocytes", Pat.alt "Monocytes" "MON"),
  ("Eosinophils", Pat.alt "Eosinophils" "EOS"),
  ("Basophils", Pat.alt "Basophils" "BAS"),
  ("Platelets", Pat.alt "Platelets" "PLT"),
  ("MPV", Pat.single "MPV"),
  ("Reticulocytes", Pat.alt "Reticulocytes" "RET")
]

/-- Numeric value of a digit string. -/
def natOfDigits (l : List Char) : ℕ :=
  l.foldl (fun n c => 10 * n + (c.toNat - 48)) 0

/-- Python `float()` applied to a token made of digits and periods:
succeeds exactly when the token has at most one period and at least one
digit, returning its decimal value; otherwise raises ValueError (`none`). -/
def pyFloat (tok : List Char) : Option ℚ :=
  let ip := tok.takeWhile Char.isDigit
  let rest := tok.drop ip.length
  match rest with
  | [] => if ip.isEmpty then none else some (natOfDigits ip : ℚ)
  | '.' :: fp =>
    if fp.all Char.isDigit && !(ip.isEmpty && fp.isEmpty) then
      some ((natOfDigits ip : ℚ) + (natOfDigits fp : ℚ) / 10 ^ fp.length)
    else none
  | _ => none

/-- `parse_cbc_values`: for each pattern in order, search the text; on a
match convert the captured group with `float`.  A ValueError (unparsable
token) is caught and the parameter dropped; but a match of a bare first
alternative gives `float(None)`, whose TypeError is NOT caught by the
`except ValueError` and escapes — modelled as `Except.error ()`. -/
def parse_cbc_values (text : String) : Except Unit (List (String × ℚ)) :=
  patterns.foldlM (fun acc kp =>
    match runPat kp.2 text.toList with
    | none => Except.ok acc
    | some none => Except.error ()
    | some (some tok) =>
      match pyFloat tok with
      | some q => Except.ok (acc ++ [(kp.1, q)])
      | none => Except.ok acc) []

/-! ## `assess_sample_quality` -/

/-- Quality issue text 1 (sample older than 72 hours). -/
def qualityIssue1 : String :=
  "Sample >72 hours old: May show spurious elevated MCV and MPV due to cell swelling."

/-- Quality issue text 2 (frozen storage). -/
def qualityIssue2 : String :=
  "Freezing causes cell lysis, leading to inaccurate counts."

/-- Quality issue text 3 (heated storage). -/
def qualityIssue3 : String :=
  "Heat exposure causes RBC fragmentation, mimicking burn victim samples."

/-- Quality issue text 4 (elevated MCV). -/
def qualityIssue4 : String :=
  "Elevated MCV may indicate old sample or macrocytosis."

/-- Quality issue text 5 (elevated MPV). -/
def qualityIssue5 : String :=
  "Elevated MPV suggests prolonged EDTA exposure."

/-- Quality issue text 6 (possible hemolysis). -/
def qualityIssue6 : String :=
  "Possible hemolysis: Low Hb and RBC due to shearing during collection."

/-- `assess_sample_quality(values, sample_age_hours, storage_temp)`: starts
from an empty list and appends each triggered issue in program order. -/
def assess_sample_quality (values : List (String × ℚ)) (sample_age_hours : ℚ)
    (storage_temp : String) : List String :=
  let qi : List String := []
  let qi := if 72 < sample_age_hours then qi ++ [qualityIssue1] else qi
  let qi := if storage_temp = "Frozen" then qi ++ [qualityIssue2] else qi
  let qi := if storage_temp = "Heated" then qi ++ [qualityIssue3] else qi
  let qi := match List.lookup "MCV" values with
    | some m => if 100 < m then qi ++ [qualityIssue4] else qi
    | none => qi
  let qi := match List.lookup "MPV" values with
    | some m =>
      if (lookupRange "MPV").isSome = true ∧ maxOf "MPV" < m then qi ++ [qualityIssue5] else qi
    | none => qi
  let qi := match List.lookup "Hemoglobin" values, List.lookup "RBC" values with
    | some hb, some rbc =>
      if hb < minOf "Hemoglobin" ∧ rbc < minOf "RBC" then qi ++ [qualityIssue6] else qi
    | _, _ => qi
  qi

/-- Predicate 1 of the quality assessor: `sample_age_hours > 72`. -/
def ageFlag (sample_age_hours : ℚ) : Bool :=
  decide (72 < sample_age_hours)

/-- Predicate 4 of the quality assessor: `'MCV' in values and values['MCV'] > 100`. -/
def mcvFlag (values : List (String × ℚ)) : Bool :=
  match List.lookup "MCV" values with
  | some m => decide (100 < m)
  | none => false

/-- Predicate 5 of the quality assessor: MPV present, in the table, above its max. -/
def mpvFlag (values : List (String × ℚ)) : Bool :=
  match List.lookup "MPV" values with
  | some m => (lookupRange "MPV").isSome && decide (maxOf "MPV" < m)
  | none => false

/-- Predicate 6 of the quality assessor: Hb and RBC present and both below min. -/
def hemolysisFlag (values : List (String × ℚ)) : Bool :=
  match List.lookup "Hemoglobin" values, List.lookup "RBC" values with
  | some hb, some rbc => decide (hb < minOf "Hemoglobin") && decide (rbc < minOf "RBC")
  | _, _ => false

/-! ## `analyze_values` -/

/-- The `suggestion` chosen in the `Low` branch of `analyze_values`. -/
def lowSuggestion (param : String) : String :=
  if param = "RBC" then
    "Possible anemia. Evaluate with MCV classification (microcytic, normocytic, macrocytic). Refer to \x27Diagnostic approach to anemia in adults\x27 or \x27Approach to the child with anemia\x27. Consider reticulocyte count for production vs. loss/destruction."
  else if param = "Platelets" then
    "Thrombocytopenia. Refer to \x27Approach to the child with unexplained thrombocytopenia\x27 or \x27Diagnostic approach to thrombocytopenia in adults\x27."
  else if param = "WBC" then
    "Neutropenia or lymphopenia possible. Refer to \x27Evaluation of neutropenia in children and adolescents\x27 or \x27Approach to the adult with unexplained neutropenia\x27. If low lymphocytes, consider primary immunodeficiency disorders (PID): Check absolute lymphocyte count (ALC); low ALC suggests T-cell disorder."
  else if param = "Neutrophils" then
    "Neutropenia: Increased infection risk. Evaluate for phagocytic disorders or PID. Series of CBCs needed for confirmation."
  else if param = "Lymphocytes" then
    "Lymphopenia: Possible T-cell deficiency. In PID, low ALC on CBC prompts further immunoglobulin and complement testing."
  else
    "Low " ++ param ++ ". Investigate further."

/-- The `suggestion` chosen in the `High` branch of `analyze_values`. -/
def highSuggestion (param : String) : String :=
  if param = "RBC" then
    "Erythrocytosis/polycythemia. Refer to \x27Diagnostic approach to the patient with erythrocytosis/polycythemia\x27."
  else if param = "Platelets" then
    "Thrombocytosis. Refer to \x27Approach to the patient with thrombocytosis\x27."
  else if param = "WBC" then
    "Neutrophilia or leukocytosis. Refer to \x27Approach to the patient with neutrophilia\x27. Check for infection, inflammation, or malignancy. Review peripheral smear for left shift."
  else if param = "Neutrophils" then
    "Neutrophilia (>7.7 x10^9/L). Evaluate CBC with differential and smear. Causes: Infection, stress, malignancy. If persistent, consider bone marrow biopsy."
  else
    "High " ++ param ++ ". Investigate further."

/-- The per-parameter step of the `for param, val in values.items()` loop:
skip keys outside NORMAL_RANGES, otherwise compare to the range and build
the finding dict. -/
def perParamFinding (param : String) (val : ℚ) : Option Finding :=
  match lookupRange param with
  | none => none
  | some r =>
    if val < r.min then
      some { Parameter := r.desc, Value := PyVal.num val, Unit := r.unit,
             Status := "Low", Suggestion := lowSuggestion param }
    else if r.max < val then
      some { Parameter := r.desc, Value := PyVal.num val, Unit := r.unit,
             Status := "High", Suggestion := highSuggestion param }
    else
      some { Parameter := r.desc, Value := PyVal.num val, Unit := r.unit,
             Status := "Normal", Suggestion := "Within normal range." }

/-- The Status of the per-parameter finding for `(p, v)`, when `p` is known. -/
def perParamStatus (p : String) (v : ℚ) : Option String :=
  (perParamFinding p v).map Finding.Status

/-- The finding appended when the Rule of Threes is violated. -/
def ruleOfThreesFinding : Finding :=
  { Parameter := "Rule of Threes", Value := PyVal.str "Violated", Unit := "",
    Status := "Abnormal",
    Suggestion := "Results may be spurious or indicate a true hematologic condition. Recommend blood smear evaluation." }

/-- The Rule-of-Threes block of `analyze_values`: requires RBC, Hemoglobin
and Hematocrit; appends one finding unless
`abs(3*rbc - hb) < 1 and abs(3*hb - hct) < 3`. -/
def ruleOfThreesFindings (values : List (String × ℚ)) : List Finding :=
  match List.lookup "RBC" values, List.lookup "Hemoglobin" values,
      List.lookup "Hematocrit" values with
  | some rbc, some hb, some hct =>
    if ¬ (|3 * rbc - hb| < 1 ∧ |3 * hb - hct| < 3) then [ruleOfThreesFinding] else []
  | _, _, _ => []

/-- The `anemia_type` string computed in the anemia block. -/
def anemiaType (values : List (String × ℚ)) : String :=
  match List.lookup "MCV" values with
  | none => ""
  | some m =>
    if m < 80 then "Microcytic: Possible iron deficiency or thalassemia."
    else if 100 < m then "Macrocytic: Possible B12/folate deficiency."
    else "Normocytic: Possible chronic disease or hemolysis."

/-- The anemia block of `analyze_values`: fires when Hemoglobin is present
and below its table minimum. -/
def anemiaFindings (values : List (String × ℚ)) : List Finding :=
  match List.lookup "Hemoglobin" values with
  | some hb =>
    if hb < minOf "Hemoglobin" then
      [{ Parameter := "Anemia Evaluation", Value := PyVal.str "", Unit := "",
         Status := "Abnormal",
         Suggestion := "Low Hb indicates anemia. " ++ anemiaType values ++ " Use reticulocyte count to assess production. Peripheral smear for morphology." }]
    else []
  | none => []

/-- The finding appended by the PID block. -/
def pidFinding : Finding :=
  { Parameter := "Possible PID", Value := PyVal.str "", Unit := "",
    Status := "Abnormal",
    Suggestion := "Low lymphocytes: Consider primary immunodeficiency. Initial tests: CBC with ALC, immunoglobulins, complement. If low ALC, evaluate T-cell function." }

/-- The PID block of `analyze_values`: fires when Lymphocytes is present
and below its table minimum. -/
def pidFindings (values : List (String × ℚ)) : List Finding :=
  match List.lookup "Lymphocytes" values with
  | some l => if l < minOf "Lymphocytes" then [pidFinding] else []
  | none => []

/-- `analyze_values(values)`: the per-parameter loop in the insertion order
of the input mapping, followed by the Rule-of-Threes, anemia and PID blocks
in program order. -/
def analyze_values (values : List (String × ℚ)) : List Finding :=
  values.filterMap (fun kv => perParamFinding kv.1 kv.2)
    ++ ruleOfThreesFindings values ++ anemiaFindings values ++ pidFindings values

/-! ## Spec-side vocabulary used by the theorem statements -/

/-- Whether a key belongs to the reference table. -/
def knownKey (kv : String × ℚ) : Bool :=
  (lookupRange kv.1).isSome

/-- The display label of a table parameter. -/
def descOf (p : String) : String :=
  match lookupRange p with
  | some r => r.desc
  | none => ""

/-- The trigger condition of the Rule-of-Threes block. -/
def rotFlag (values : List (String × ℚ)) : Bool :=
  match List.lookup "RBC" values, List.lookup "Hemoglobin" values,
      List.lookup "Hematocrit" values with
  | some rbc, some hb, some hct =>
    !(decide (|3 * rbc - hb| < 1) && decide (|3 * hb - hct| < 3))
  | _, _, _ => false

/-- The trigger condition of the anemia block. -/
def anemiaFlag (values : List (String × ℚ)) : Bool :=
  match List.lookup "Hemoglobin" values with
  | some hb => decide (hb < minOf "Hemoglobin")
  | none => false

/-- The trigger condition of the PID block. -/
def pidFlag (values : List (String × ℚ)) : Bool :=
  match List.lookup "Lymphocytes" values with
  | some l => decide (l < minOf "Lymphocytes")
  | none => false

/-! ## Helper lemmas -/

/-- Every table entry has min ≤ max. -/
theorem range_min_le_max (p : String) (r : RangeInfo) (h : lookupRange p = some r) :
    r.min ≤ r.max := by
  unfold lookupRange NORMAL_RANGES at h
  simp only [List.lookup] at h
  repeat' split at h
  all_goals first
    | (injection h with h2; subst h2; norm_num)
    | exact absurd h (by simp)

/-- A member of the per-parameter segment has one of the three
per-parameter statuses and carries a numeric value. -/
theorem mem_perParam_cases (values : List (String × ℚ)) (f : Finding)
    (hf : f ∈ values.filterMap (fun kv => perParamFinding kv.1 kv.2)) :
    (f.Status = "Low" ∨ f.Status = "High" ∨ f.Status = "Normal")
      ∧ ∃ q, f.Value = PyVal.num q := by
  obtain ⟨kv, -, hsome⟩ := List.mem_filterMap.mp hf
  unfold perParamFinding at hsome
  split at hsome
  · exact absurd hsome (by simp)
  · split_ifs at hsome <;>
      (simp only [Option.some.injEq] at hsome; subst hsome; exact ⟨by simp, kv.2, rfl⟩)

/-- A member of the Rule-of-Threes segment is the Rule-of-Threes finding. -/
theorem mem_rot_eq (values : List (String × ℚ)) (f : Finding)
    (hf : f ∈ ruleOfThreesFindings values) : f = ruleOfThreesFinding := by
  unfold ruleOfThreesFindings at hf
  split at hf
  · split at hf
    · simpa using hf
    · simp at hf
  · simp at hf

/-- A member of the anemia segment has the anemia label and status. -/
theorem mem_anemia_eq (values : List (String × ℚ)) (f : Finding)
    (hf : f ∈ anemiaFindings values) :
    f.Parameter = "Anemia Evaluation" ∧ f.Status = "Abnormal" := by
  unfold anemiaFindings at hf
  split at hf
  · split at hf
    · simp only [List.mem_singleton] at hf
      subst hf
      exact ⟨rfl, rfl⟩
    · simp at hf
  · simp at hf

/-- A member of the PID segment is the PID finding. -/
theorem mem_pid_eq (values : List (String × ℚ)) (f : Finding)
    (hf : f ∈ pidFindings values) : f = pidFinding := by
  unfold pidFindings at hf
  split at hf
  · split at hf
    · simpa using hf
    · simp at hf
  · simp at hf

/-- The status of any finding emitted by `analyze_values` is one of the
four strings the source ever writes into the Status slot. -/
theorem mem_analyze_status (values : List (String × ℚ)) (f : Finding)
    (hf : f ∈ analyze_values values) :
    f.Status = "Low" ∨ f.Status = "High" ∨ f.Status = "Normal" ∨ f.Status = "Abnormal" := by
  unfold analyze_values at hf
  rcases List.mem_append.mp hf with hf | hf
  · rcases List.mem_append.mp hf with hf | hf
    · rcases List.mem_append.mp hf with hf | hf
      · rcases (mem_perParam_cases values f hf).1 with h | h | h <;> simp [h]
      · rw [mem_rot_eq values f hf]; simp [ruleOfThreesFinding]
    · simp [(mem_anemia_eq values f hf).2]
  · rw [mem_pid_eq values f hf]; simp [pidFinding]

/-- A present key whose per-parameter step yields a finding puts that
finding into the output of `analyze_values`. -/
theorem perParam_mem_analyze (values : List (String × ℚ)) (kv : String × ℚ) (f : Finding)
    (hkv : kv ∈ values) (hf : perParamFinding kv.1 kv.2 = some f) :
    f ∈ analyze_values values := by
  unfold analyze_values
  exact List.mem_append.mpr (Or.inl (List.mem_append.mpr (Or.inl (List.mem_append.mpr
    (Or.inl (List.mem_filterMap.mpr ⟨kv, hkv, hf⟩))))))

/-- Looking up a key that the filter keeps is unchanged by the filter. -/
theorem lookup_filter_eq {β : Type} (k : String) (p : String × β → Bool)
    (l : List (String × β)) (hp : ∀ v, p (k, v) = true) :
    List.lookup k (l.filter p) = List.lookup k l := by
  induction l with
  | nil => rfl
  | cons kv rest ih =>
    obtain ⟨k2, v⟩ := kv
    by_cases hk : k = k2
    · subst hk
      simp [List.filter_cons, hp v, List.lookup]
    · have hbeq : (k == k2) = false := by simp [hk]
      rcases hpkv : p (k2, v) with _ | _
      · simp [List.filter_cons, hpkv, List.lookup, hbeq, ih]
      · simp [List.filter_cons, hpkv, List.lookup, hbeq, ih]

/-- Filtering away only elements the filterMap drops anyway is invisible. -/
theorem filterMap_filter_eq {α β : Type} (f : α → Option β) (p : α → Bool)
    (h : ∀ x, p x = false → f x = none) (l : List α) :
    (l.filter p).filterMap f = l.filterMap f := by
  induction l with
  | nil => rfl
  | cons a rest ih =>
    rcases hpa : p a with _ | _
    · simp [List.filter_cons, hpa, List.filterMap_cons, h a hpa, ih]
    · cases hfa : f a <;> simp [List.filter_cons, hpa, List.filterMap_cons, hfa, ih]

/-- Parameter labels of the per-parameter segment: the table-known keys'
labels in input insertion order. -/
theorem map_perParam_desc (values : List (String × ℚ)) :
    ((values.filterMap fun kv => perParamFinding kv.1 kv.2).map Finding.Parameter)
      = (values.filter knownKey).map fun kv => descOf kv.1 := by
  induction values with
  | nil => rfl
  | cons kv rest ih =>
    rcases hr : lookupRange kv.1 with _ | r
    · have hpf : perParamFinding kv.1 kv.2 = none := by
        unfold perParamFinding
        rw [hr]
      simp [List.filterMap_cons, List.filter_cons, knownKey, hr, hpf, ih]
    · have hpf : ∃ f, perParamFinding kv.1 kv.2 = some f ∧ f.Parameter = r.desc := by
        unfold perParamFinding
        simp only [hr]
        split_ifs <;> exact ⟨_, rfl, rfl⟩
      obtain ⟨f, hf1, hf2⟩ := hpf
      simp [List.filterMap_cons, List.filter_cons, knownKey, hr, hf1, hf2, descOf, ih]

/-- Parameter label of the Rule-of-Threes segment. -/
theorem map_rot_param (values : List (String × ℚ)) :
    (ruleOfThreesFindings values).map Finding.Parameter
      = if rotFlag values then ["Rule of Threes"] else [] := by
  unfold ruleOfThreesFindings rotFlag
  rcases h1 : List.lookup "RBC" values with _ | rbc
  · simp
  rcases h2 : List.lookup "Hemoglobin" values with _ | hb
  · simp
  rcases h3 : List.lookup "Hematocrit" values with _ | hct
  · simp
  dsimp only
  by_cases hc : |3 * rbc - hb| < 1 ∧ |3 * hb - hct| < 3
  · rw [if_neg (not_not_intro hc), if_neg (by simpa using hc)]
    simp
  · rw [if_pos hc, if_pos (by simpa using (not_and_or.mp hc).imp not_lt.mp not_lt.mp)]
    simp [ruleOfThreesFinding]

/-- Parameter label of the anemia segment. -/
theorem map_anemia_param (values : List (String × ℚ)) :
    (anemiaFindings values).map Finding.Parameter
      = if anemiaFlag values then ["Anemia Evaluation"] else [] := by
  unfold anemiaFindings anemiaFlag
  rcases h : List.lookup "Hemoglobin" values with _ | hb
  · simp
  dsimp only
  simp only [decide_eq_true_eq]
  split_ifs with hhb
  · simp
  · simp

/-- Parameter label of the PID segment. -/
theorem map_pid_param (values : List (String × ℚ)) :
    (pidFindings values).map Finding.Parameter
      = if pidFlag values then ["Possible PID"] else [] := by
  unfold pidFindings pidFlag
  rcases h : List.lookup "Lymphocytes" values with _ | l
  · simp
  dsimp only
  simp only [decide_eq_true_eq]
  split_ifs with hl
  · simp [pidFinding]
  · simp

/-! ## Claims -/

/-- C1: the extraction pipeline is NOT total.  On the text
"Hemoglobin: 15" the pattern `Hemoglobin|Hb[\s:]*([\d\.]+)` matches the
bare word `Hemoglobin` with an empty capture group, `float(None)` raises
TypeError, and the `except ValueError` handler does not catch it, so
`parse_cbc_values` raises instead of returning a mapping. -/
theorem C1_parse_raises_on_bare_hemoglobin :
    parse_cbc_values "Hemoglobin: 15" = Except.error () := rfl

/-- C2 counterexample: with RDW present and above its maximum (20 > 14.5),
the full output of the evaluator is a single per-parameter finding with
status High — no composite RDW-interpretation finding with status
Elevated exists, contradicting the claim. -/
theorem C2_counterexample :
    (analyze_values [("RDW", (20 : ℚ))]).map Finding.Status = ["High"] := by
  have h1 : lookupRange "RDW" = some ⟨11.5, 14.5, "%", "Red Cell Distribution Width"⟩ := rfl
  have h2 : List.lookup "RBC" [("RDW", (20 : ℚ))] = none := rfl
  have h3 : List.lookup "Hemoglobin" [("RDW", (20 : ℚ))] = none := rfl
  have h4 : List.lookup "Lymphocytes" [("RDW", (20 : ℚ))] = none := rfl
  norm_num [analyze_values, ruleOfThreesFindings, anemiaFindings, pidFindings,
    perParamFinding, List.filterMap_cons, h1, h2, h3, h4]

/-- C2 (amended): an out-of-range-high RDW yields only the plain
per-parameter High finding with the generic suggestion, and no finding
with status Elevated is ever emitted, for any input mapping. -/
theorem C2_rdw_no_composite (values : List (String × ℚ)) (v : ℚ)
    (hmem : ("RDW", v) ∈ values) (hv : (14.5 : ℚ) < v) :
    ({ Parameter := "Red Cell Distribution Width", Value := PyVal.num v, Unit := "%",
       Status := "High", Suggestion := "High RDW. Investigate further." } : Finding)
        ∈ analyze_values values
      ∧ ∀ f ∈ analyze_values values, f.Status ≠ "Elevated" := by
  constructor
  · have hr : lookupRange "RDW" = some ⟨11.5, 14.5, "%", "Red Cell Distribution Width"⟩ := rfl
    have hs : highSuggestion "RDW" = "High RDW. Investigate further." := rfl
    have hpf : perParamFinding "RDW" v
        = some { Parameter := "Red Cell Distribution Width", Value := PyVal.num v, Unit := "%",
                 Status := "High", Suggestion := "High RDW. Investigate further." } := by
      unfold perParamFinding
      simp only [hr]
      rw [if_neg (by linarith : ¬ v < (11.5 : ℚ)), if_pos hv, hs]
    exact perParam_mem_analyze values ("RDW", v) _ hmem hpf
  · intro f hf
    rcases mem_analyze_status values f hf with h | h | h | h <;> rw [h] <;> decide

/-- C2 witness: the amended statement instantiated at the single-entry
mapping with RDW = 20. -/
theorem C2_witness :
    ({ Parameter := "Red Cell Distribution Width", Value := PyVal.num 20, Unit := "%",
       Status := "High", Suggestion := "High RDW. Investigate further." } : Finding)
        ∈ analyze_values [("RDW", (20 : ℚ))]
      ∧ ∀ f ∈ analyze_values [("RDW", (20 : ℚ))], f.Status ≠ "Elevated" :=
  C2_rdw_no_composite [("RDW", (20 : ℚ))] 20 (by simp) (by norm_num)

/-- C3 counterexample: low Platelets is a smear-worthy trigger by the
claim, yet the full output is the single per-parameter Low finding — no
trailing ActionNeeded aggregation finding exists. -/
theorem C3_counterexample :
    (analyze_values [("Platelets", (100 : ℚ))]).map Finding.Status = ["Low"] := by
  have h1 : lookupRange "Platelets" = some ⟨150, 450, "x10^9/L", "Platelet Count"⟩ := rfl
  have h2 : List.lookup "RBC" [("Platelets", (100 : ℚ))] = none := rfl
  have h3 : List.lookup "Hemoglobin" [("Platelets", (100 : ℚ))] = none := rfl
  have h4 : List.lookup "Lymphocytes" [("Platelets", (100 : ℚ))] = none := rfl
  norm_num [analyze_values, ruleOfThreesFindings, anemiaFindings, pidFindings,
    perParamFinding, List.filterMap_cons, h1, h2, h3, h4]

/-- C3 (amended): the evaluator never emits a finding with status
ActionNeeded; no smear-recommendation aggregator exists. -/
theorem C3_no_action_needed (values : List (String × ℚ)) :
    ∀ f ∈ analyze_values values, f.Status ≠ "ActionNeeded" := by
  intro f hf
  rcases mem_analyze_status values f hf with h | h | h | h <;> rw [h] <;> decide

/-- C3 witness: the amended statement applied to the Low-Platelets finding
of the single-entry mapping with Platelets = 100. -/
theorem C3_witness :
    Finding.Status { Parameter := "Platelet Count", Value := PyVal.num 100,
                     Unit := "x10^9/L", Status := "Low",
                     Suggestion := lowSuggestion "Platelets" } ≠ "ActionNeeded" :=
  C3_no_action_needed [("Platelets", (100 : ℚ))] _ (by
    have h1 : lookupRange "Platelets" = some ⟨150, 450, "x10^9/L", "Platelet Count"⟩ := rfl
    have h2 : List.lookup "RBC" [("Platelets", (100 : ℚ))] = none := rfl
    have h3 : List.lookup "Hemoglobin" [("Platelets", (100 : ℚ))] = none := rfl
    have h4 : List.lookup "Lymphocytes" [("Platelets", (100 : ℚ))] = none := rfl
    norm_num [analyze_values, ruleOfThreesFindings, anemiaFindings, pidFindings,
      perParamFinding, List.filterMap_cons, h1, h2, h3, h4])

/-- C4 counterexample: extraction does not normalize comma decimal
separators — "RBC: 5,2" and "RBC: 5.2" parse to different mappings. -/
theorem C4_counterexample :
    parse_cbc_values "RBC: 5,2" ≠ parse_cbc_values "RBC: 5.2" := by
  have h1 : parse_cbc_values "RBC: 5,2" = Except.ok [("RBC", ((5 : ℕ) : ℚ))] := rfl
  have h2 : parse_cbc_values "RBC: 5.2"
      = Except.ok [("RBC", ((5 : ℕ) : ℚ) + ((2 : ℕ) : ℚ) / 10 ^ 1)] := rfl
  rw [h1, h2]
  intro hc
  simp only [Except.ok.injEq, List.cons.injEq, Prod.mk.injEq, and_true, true_and] at hc
  norm_num at hc

/-- C4 (amended): no locale normalization is performed; the captured token
is the maximal run of digits and periods after the parameter name, so a
comma terminates the token: "RBC: 5,2" yields 5, while "RBC: 5.2" yields
5.2. -/
theorem C4_no_normalization :
    parse_cbc_values "RBC: 5,2" = Except.ok [("RBC", (5 : ℚ))]
      ∧ parse_cbc_values "RBC: 5.2" = Except.ok [("RBC", (5.2 : ℚ))] := by
  constructor
  · have h1 : parse_cbc_values "RBC: 5,2" = Except.ok [("RBC", ((5 : ℕ) : ℚ))] := rfl
    rw [h1]
    norm_num
  · have h2 : parse_cbc_values "RBC: 5.2"
        = Except.ok [("RBC", ((5 : ℕ) : ℚ) + ((2 : ℕ) : ℚ) / 10 ^ 1)] := rfl
    rw [h2]
    norm_num

/-- C5 counterexample: a High Lymphocytes value receives the generic
fallback suggestion, not a curated one, contradicting the claim that
Lymphocytes has curated guidance for both Low and High. -/
theorem C5_counterexample :
    (analyze_values [("Lymphocytes", (6 : ℚ))]).map Finding.Suggestion
      = ["High Lymphocytes. Investigate further."] := by
  have h1 : lookupRange "Lymphocytes" = some ⟨1.0, 4.8, "x10^9/L", "Lymphocytes (Absolute)"⟩ := rfl
  have h2 : List.lookup "RBC" [("Lymphocytes", (6 : ℚ))] = none := rfl
  have h3 : List.lookup "Hemoglobin" [("Lymphocytes", (6 : ℚ))] = none := rfl
  have h4 : List.lookup "Lymphocytes" [("Lymphocytes", (6 : ℚ))] = some 6 := rfl
  have h5 : minOf "Lymphocytes" = 1.0 := rfl
  have h6 : highSuggestion "Lymphocytes" = "High Lymphocytes. Investigate further." := rfl
  norm_num [analyze_values, ruleOfThreesFindings, anemiaFindings, pidFindings,
    perParamFinding, List.filterMap_cons, h1, h2, h3, h4, h5, h6]

/-- C5 (amended): the Low suggestion is curated (differs from the generic
fallback) exactly for RBC, Platelets, WBC, Neutrophils and Lymphocytes;
the High suggestion exactly for RBC, Platelets, WBC and Neutrophils; every
other parameter — including Hemoglobin and Hematocrit on both sides and
Lymphocytes on the High side — receives the generic investigate-further
message. -/
theorem C5_suggestion_dispatch :
    (∀ p : String,
      p ∈ ["RBC", "Platelets", "WBC", "Neutrophils", "Lymphocytes"] ↔
        lowSuggestion p ≠ "Low " ++ p ++ ". Investigate further.")
    ∧ (∀ p : String,
      p ∈ ["RBC", "Platelets", "WBC", "Neutrophils"] ↔
        highSuggestion p ≠ "High " ++ p ++ ". Investigate further.") := by
  constructor
  · intro p
    constructor
    · intro hp hgen
      simp only [List.mem_cons, List.not_mem_nil, or_false] at hp
      rcases hp with rfl | rfl | rfl | rfl | rfl <;> exact absurd hgen (by decide)
    · intro hne
      by_contra hp
      simp only [List.mem_cons, List.not_mem_nil, or_false, not_or] at hp
      obtain ⟨n1, n2, n3, n4, n5⟩ := hp
      exact hne (by unfold lowSuggestion
                    rw [if_neg n1, if_neg n2, if_neg n3, if_neg n4, if_neg n5])
  · intro p
    constructor
    · intro hp hgen
      simp only [List.mem_cons, List.not_mem_nil, or_false] at hp
      rcases hp with rfl | rfl | rfl | rfl <;> exact absurd hgen (by decide)
    · intro hne
      by_contra hp
      simp only [List.mem_cons, List.not_mem_nil, or_false, not_or] at hp
      obtain ⟨n1, n2, n3, n4⟩ := hp
      exact hne (by unfold highSuggestion
                    rw [if_neg n1, if_neg n2, if_neg n3, if_neg n4])

/-- C5 witness: Hemoglobin, claimed curated, in fact gets the generic
fallback Low message. -/
theorem C5_witness :
    lowSuggestion "Hemoglobin" = "Low " ++ "Hemoglobin" ++ ". Investigate further." :=
  not_ne_iff.mp
    (fun hb => (by decide : ¬ ("Hemoglobin" ∈ ["RBC", "Platelets", "WBC", "Neutrophils", "Lymphocytes"]))
      ((C5_suggestion_dispatch.1 "Hemoglobin").mpr hb))

/-- C6 counterexample: an input mapping listing Platelets before RBC
produces per-parameter findings in that input order, not in the reference
table's definition order (which lists RBC before Platelets). -/
theorem C6_counterexample :
    (analyze_values [("Platelets", (200 : ℚ)), ("RBC", (5 : ℚ))]).map Finding.Parameter
        = ["Platelet Count", "Red Blood Cell Count"]
      ∧ (analyze_values [("Platelets", (200 : ℚ)), ("RBC", (5 : ℚ))]).map Finding.Parameter
        ≠ ["Red Blood Cell Count", "Platelet Count"] := by
  have hplt : lookupRange "Platelets" = some ⟨150, 450, "x10^9/L", "Platelet Count"⟩ := rfl
  have hrbc : lookupRange "RBC" = some ⟨4.5, 5.9, "x10^12/L", "Red Blood Cell Count"⟩ := rfl
  have h2 : List.lookup "RBC" [("Platelets", (200 : ℚ)), ("RBC", (5 : ℚ))] = some 5 := rfl
  have h3 : List.lookup "Hemoglobin" [("Platelets", (200 : ℚ)), ("RBC", (5 : ℚ))] = none := rfl
  have h4 : List.lookup "Lymphocytes" [("Platelets", (200 : ℚ)), ("RBC", (5 : ℚ))] = none := rfl
  constructor
  · norm_num [analyze_values, ruleOfThreesFindings, anemiaFindings, pidFindings,
      perParamFinding, List.filterMap_cons, hplt, hrbc, h2, h3, h4]
  · intro hc
    have h1 : (analyze_values [("Platelets", (200 : ℚ)), ("RBC", (5 : ℚ))]).map Finding.Parameter
        = ["Platelet Count", "Red Blood Cell Count"] := by
      norm_num [analyze_values, ruleOfThreesFindings, anemiaFindings, pidFindings,
        perParamFinding, List.filterMap_cons, hplt, hrbc, h2, h3, h4]
    rw [h1] at hc
    exact absurd hc (by decide)

/-- C6 (amended): the findings list is deterministically ordered, but
per-parameter findings appear in the input mapping's insertion order (not
table order), followed by the composite findings in the fixed sequence
Rule of Threes, Anemia Evaluation, Possible PID; no RDW or
smear-recommendation composite exists. -/
theorem C6_ordering :
    ∀ values : List (String × ℚ),
      (analyze_values values).map Finding.Parameter
        = ((values.filter knownKey).map fun kv => descOf kv.1)
          ++ (if rotFlag values then ["Rule of Threes"] else [])
          ++ (if anemiaFlag values then ["Anemia Evaluation"] else [])
          ++ (if pidFlag values then ["Possible PID"] else []) := by
  intro values
  unfold analyze_values
  simp only [List.map_append]
  rw [map_perParam_desc, map_rot_param, map_anemia_param, map_pid_param]

/-- C7: per-parameter classification — for a table parameter with range
[min, max], the status is Low iff v < min, High iff v > max, and Normal
iff min ≤ v ≤ max (so both boundary values classify as Normal). -/
theorem C7_classification (p : String) (r : RangeInfo) (v : ℚ)
    (h : lookupRange p = some r) :
    (perParamStatus p v = some "Low" ↔ v < r.min)
    ∧ (perParamStatus p v = some "High" ↔ r.max < v)
    ∧ (perParamStatus p v = some "Normal" ↔ r.min ≤ v ∧ v ≤ r.max) := by
  have hle := range_min_le_max p r h
  rcases lt_or_le v r.min with h1 | h1
  · have hmap : perParamStatus p v = some "Low" := by
      unfold perParamStatus perParamFinding
      simp only [h]
      rw [if_pos h1]
      rfl
    rw [hmap]
    refine ⟨⟨fun _ => h1, fun _ => rfl⟩, ?_, ?_⟩
    · constructor
      · intro hc
        exact absurd hc (by decide)
      · intro hc
        exfalso
        linarith
    · constructor
      · intro hc
        exact absurd hc (by decide)
      · rintro ⟨hc, -⟩
        exfalso
        linarith
  · rcases lt_or_le r.max v with h2 | h2
    · have hmap : perParamStatus p v = some "High" := by
        unfold perParamStatus perParamFinding
        simp only [h]
        rw [if_neg (not_lt.mpr h1), if_pos h2]
        rfl
      rw [hmap]
      refine ⟨?_, ⟨fun _ => h2, fun _ => rfl⟩, ?_⟩
      · constructor
        · intro hc
          exact absurd hc (by decide)
        · intro hc
          exfalso
          linarith
      · constructor
        · intro hc
          exact absurd hc (by decide)
        · rintro ⟨-, hc⟩
          exfalso
          linarith
    · have hmap : perParamStatus p v = some "Normal" := by
        unfold perParamStatus perParamFinding
        simp only [h]
        rw [if_neg (not_lt.mpr h1), if_neg (not_lt.mpr h2)]
        rfl
      rw [hmap]
      refine ⟨?_, ?_, ⟨fun _ => ⟨h1, h2⟩, fun _ => rfl⟩⟩
      · constructor
        · intro hc
          exact absurd hc (by decide)
        · intro hc
          exfalso
          linarith
      · constructor
        · intro hc
          exact absurd hc (by decide)
        · intro hc
          exfalso
          linarith

/-- C7 witness: the RBC row instantiated at the boundary-interior value 5. -/
theorem C7_witness :
    (perParamStatus "RBC" 5 = some "Low" ↔ (5 : ℚ) < 4.5)
    ∧ (perParamStatus "RBC" 5 = some "High" ↔ (5.9 : ℚ) < 5)
    ∧ (perParamStatus "RBC" 5 = some "Normal" ↔ (4.5 : ℚ) ≤ 5 ∧ (5 : ℚ) ≤ 5.9) :=
  C7_classification "RBC" ⟨4.5, 5.9, "x10^12/L", "Red Blood Cell Count"⟩ 5 rfl

/-- C8: when RBC, Hemoglobin and Hematocrit are all present, the
Rule-of-Threes finding is emitted exactly when |3·RBC − Hb| ≥ 1 or
|3·Hb − HCT| ≥ 3. -/
theorem C8_rule_of_threes (values : List (String × ℚ)) (rbc hb hct : ℚ)
    (h1 : List.lookup "RBC" values = some rbc)
    (h2 : List.lookup "Hemoglobin" values = some hb)
    (h3 : List.lookup "Hematocrit" values = some hct) :
    ruleOfThreesFinding ∈ analyze_values values
      ↔ (1 ≤ |3 * rbc - hb| ∨ 3 ≤ |3 * hb - hct|) := by
  have hrot : ruleOfThreesFindings values
      = if ¬ (|3 * rbc - hb| < 1 ∧ |3 * hb - hct| < 3)
          then [ruleOfThreesFinding] else [] := by
    unfold ruleOfThreesFindings
    rw [h1, h2, h3]
  have hiff : ¬ (|3 * rbc - hb| < 1 ∧ |3 * hb - hct| < 3)
      ↔ (1 ≤ |3 * rbc - hb| ∨ 3 ≤ |3 * hb - hct|) := by
    rw [not_and_or, not_lt, not_lt]
  constructor
  · intro hmem
    unfold analyze_values at hmem
    rcases List.mem_append.mp hmem with hmem | hmem
    · rcases List.mem_append.mp hmem with hmem | hmem
      · rcases List.mem_append.mp hmem with hmem | hmem
        · obtain ⟨-, q, hq⟩ := mem_perParam_cases values _ hmem
          exact absurd hq (by simp [ruleOfThreesFinding])
        · rw [hrot] at hmem
          split_ifs at hmem with hcond
          · simp at hmem
          · exact hiff.mp hcond
      · exact absurd (mem_anemia_eq values _ hmem).1 (by decide)
    · exact absurd (mem_pid_eq values _ hmem) (by decide)
  · intro hcond
    have hmem : ruleOfThreesFinding ∈ ruleOfThreesFindings values := by
      rw [hrot, if_pos (hiff.mpr hcond)]
      exact List.mem_singleton.mpr rfl
    unfold analyze_values
    exact List.mem_append.mpr (Or.inl (List.mem_append.mpr (Or.inl
      (List.mem_append.mpr (Or.inr hmem)))))

/-- C8 witness: RBC=5, Hb=10, HCT=45 — instantiates the equivalence; the
left disjunct 1 ≤ |15 − 10| holds, so the finding is emitted. -/
theorem C8_witness :
    ruleOfThreesFinding
        ∈ analyze_values [("RBC", (5 : ℚ)), ("Hemoglobin", (10 : ℚ)), ("Hematocrit", (45 : ℚ))]
      ↔ (1 ≤ |3 * (5 : ℚ) - 10| ∨ 3 ≤ |3 * (10 : ℚ) - 45|) :=
  C8_rule_of_threes _ 5 10 45 rfl rfl rfl

/-- C9: the quality assessor equals the concatenation of its six
independent predicate segments in fixed order (so it is total, all
applicable predicates fire, and it returns [] when none triggers); and
predicate 4 fires exactly when MCV is present and above the table maximum
for MCV. -/
theorem C9_quality_assessor :
    (∀ (values : List (String × ℚ)) (sample_age_hours : ℚ) (storage_temp : String),
      assess_sample_quality values sample_age_hours storage_temp =
        (if ageFlag sample_age_hours then [qualityIssue1] else [])
        ++ (if storage_temp = "Frozen" then [qualityIssue2] else [])
        ++ (if storage_temp = "Heated" then [qualityIssue3] else [])
        ++ (if mcvFlag values then [qualityIssue4] else [])
        ++ (if mpvFlag values then [qualityIssue5] else [])
        ++ (if hemolysisFlag values then [qualityIssue6] else []))
    ∧ (∀ (values : List (String × ℚ)) (v : ℚ), List.lookup "MCV" values = some v →
        (mcvFlag values = true ↔ maxOf "MCV" < v)) := by
  constructor
  · intro values age temp
    unfold assess_sample_quality ageFlag mcvFlag mpvFlag hemolysisFlag
    have hsome : (lookupRange "MPV").isSome = true := rfl
    have hia : ∀ (c : Prop) [Decidable c] (qi : List String) (s : String),
        (if c then qi ++ [s] else qi) = qi ++ (if c then [s] else []) := by
      intro c inst qi s
      split_ifs <;> simp
    rcases hmcv : List.lookup "MCV" values with _ | m <;>
      rcases hmpv : List.lookup "MPV" values with _ | m2 <;>
        rcases hhb : List.lookup "Hemoglobin" values with _ | hb <;>
          rcases hrbc : List.lookup "RBC" values with _ | rbc <;>
            dsimp only <;>
              simp only [hia, hsome, decide_eq_true_eq, Bool.and_eq_true, true_and,
                Bool.false_eq_true, reduceIte, List.nil_append] <;>
                simp
  · intro values v h
    have hmax : maxOf "MCV" = 100 := rfl
    rw [hmax]
    unfold mcvFlag
    rw [h]
    simp

/-- C9 witness: predicate 4 at the single-entry mapping with MCV = 101. -/
theorem C9_witness :
    mcvFlag [("MCV", (101 : ℚ))] = true ↔ maxOf "MCV" < 101 :=
  C9_quality_assessor.2 [("MCV", (101 : ℚ))] 101 rfl

/-- C10: keys outside the reference table are silently ignored — removing
them from the input leaves the evaluator's output unchanged, and a mapping
holding only an unknown key produces no findings and no error. -/
theorem C10_unknown_keys :
    (∀ values : List (String × ℚ),
      analyze_values (values.filter knownKey) = analyze_values values)
    ∧ (∀ (k : String) (v : ℚ), lookupRange k = none → analyze_values [(k, v)] = []) := by
  constructor
  · intro values
    unfold analyze_values
    have hpp : (values.filter knownKey).filterMap (fun kv => perParamFinding kv.1 kv.2)
        = values.filterMap (fun kv => perParamFinding kv.1 kv.2) :=
      filterMap_filter_eq _ _ (fun kv hkv => by
        unfold knownKey at hkv
        unfold perParamFinding
        rcases hr : lookupRange kv.1 with _ | r
        · rfl
        · rw [hr] at hkv
          simp at hkv) values
    have hlk : ∀ kk : String, (lookupRange kk).isSome = true →
        List.lookup kk (values.filter knownKey) = List.lookup kk values := by
      intro kk hkk
      exact lookup_filter_eq kk knownKey values (fun v2 => hkk)
    rw [hpp,
      show ruleOfThreesFindings (values.filter knownKey) = ruleOfThreesFindings values from by
        unfold ruleOfThreesFindings
        rw [hlk "RBC" rfl, hlk "Hemoglobin" rfl, hlk "Hematocrit" rfl],
      show anemiaFindings (values.filter knownKey) = anemiaFindings values from by
        unfold anemiaFindings anemiaType
        rw [hlk "Hemoglobin" rfl, hlk "MCV" rfl],
      show pidFindings (values.filter knownKey) = pidFindings values from by
        unfold pidFindings
        rw [hlk "Lymphocytes" rfl]]
  · intro k v hk
    have hne : ∀ s : String, (lookupRange s).isSome = true → (s == k) = false := by
      intro s hs
      rcases hbeq : s == k with _ | _
      · rfl
      · rw [eq_of_beq hbeq, hk] at hs
        exact absurd hs (by simp)
    have hpf : perParamFinding k v = none := by
      unfold perParamFinding
      rw [hk]
    have e1 : List.lookup "RBC" [(k, v)] = none := by
      simp [List.lookup, hne "RBC" rfl]
    have e2 : List.lookup "Hemoglobin" [(k, v)] = none := by
      simp [List.lookup, hne "Hemoglobin" rfl]
    have e3 : List.lookup "Lymphocytes" [(k, v)] = none := by
      simp [List.lookup, hne "Lymphocytes" rfl]
    unfold analyze_values ruleOfThreesFindings anemiaFindings pidFindings
    simp [List.filterMap_cons, hpf, e1, e2, e3]

/-- C10 witness: a mapping with the unknown key Foo yields no findings. -/
theorem C10_witness :
    analyze_values [("Foo", (1 : ℚ))] = [] :=
  C10_unknown_keys.2 "Foo" 1 rfl

end App
